import Mathlib

/-!
Verification of the FlowGuard benchmark scripts.

This development is a shallow embedding of the two Python scripts
`scripts/create_benchmark_dataset.py` (dataset synthesizer) and
`scripts/evaluate_vision_accuracy.py` (benchmark evaluator), together with
theorems settling the specified behaviour of `generate_synthetic_examples`,
`generate_mock_examples`, `generate_mock_example` and `evaluate_results`.

Modelling conventions:
- machine floats become `ℚ` (the concrete values compared here are exact);
- a Python function that can raise an uncaught exception returns `Option`,
  with `none` marking the raise;
- the external text-generation call is a parameter
  `oracle : Nat → Option GenData`: `some` is a successful, well-formed reply
  for the example at that position, `none` is any failure caught by the
  `try/except` block (transport error, malformed JSON, missing field);
- `datetime.now().isoformat()` is a parameter `now : String`.
-/

namespace FlowGuard

/-- Ground-truth label of a benchmark example (`ground_truth` object). -/
structure GroundTruth where
  verdict : Bool
  expected_issues : List String
deriving DecidableEq

/-- Metadata object of a benchmark example. -/
structure Metadata where
  category : String
  difficulty : String
  created_at : String
deriving DecidableEq

/-- One benchmark example, as built by the synthesizer and read by the evaluator. -/
structure Example where
  id : String
  screenshot_path : String
  assertion : String
  ground_truth : GroundTruth
  metadata : Metadata
deriving DecidableEq

/-- Persisted dataset document (`save_dataset` shape). -/
structure Dataset where
  version : String
  created_at : String
  total_examples : Nat
  examples : List Example
deriving DecidableEq

/-- One entry of `results['predictions']`. -/
structure Prediction where
  example_id : String
  predicted_verdict : Bool
deriving DecidableEq

/-- Results document consumed by the evaluator. -/
structure ResultsDoc where
  predictions : List Prediction
deriving DecidableEq

/-- Report returned by `evaluate_results`; rates are `ℚ`, counts are `Nat`
(the Python values are produced by `float(...)` and `int(...)`). -/
structure Report where
  accuracy : ℚ
  precision : ℚ
  «recall» : ℚ
  f1_score : ℚ
  true_positives : Nat
  false_positives : Nat
  true_negatives : Nat
  false_negatives : Nat
  total_examples : Nat
deriving DecidableEq

/-- First prediction whose `example_id` equals `id`: the code's
`next((r for r in results['predictions'] if r['example_id'] == example_id), None)`. -/
def findPred (results : ResultsDoc) (id : String) : Option Prediction :=
  results.predictions.find? (fun r => r.example_id == id)

/-- Joined `(y_true, y_pred)` pairs accumulated by the loop of
`evaluate_results`, in dataset order; an example with no matching prediction
is skipped (`continue`). -/
def matchedPairs (dataset : Dataset) (results : ResultsDoc) : List (Bool × Bool) :=
  dataset.examples.filterMap (fun ex =>
    (findPred results ex.id).map (fun r => (ex.ground_truth.verdict, r.predicted_verdict)))

/-- All-zero report returned on the `len(y_true) == 0` branch. -/
def zeroReport : Report :=
  { accuracy := 0, precision := 0, «recall» := 0, f1_score := 0,
    true_positives := 0, false_positives := 0, true_negatives := 0,
    false_negatives := 0, total_examples := 0 }

/-- Holds exactly when sklearn's `confusion_matrix(y_true, y_pred)` sees a
single class: the label set is inferred as the distinct values occurring in
`y_true ++ y_pred`, and over booleans that set is a singleton iff all values
agree. In that case the matrix is 1×1 and `tn, fp, fn, tp = cm.ravel()`
raises `ValueError` (cannot unpack 1 value into 4). -/
def singleClass (pairs : List (Bool × Bool)) : Bool :=
  ((pairs.map Prod.fst ++ pairs.map Prod.snd).all (fun b => b)) ||
  ((pairs.map Prod.fst ++ pairs.map Prod.snd).all (fun b => !b))

/-- Metrics computation of `evaluate_results` on the accumulated pairs.
`none` models the uncaught `ValueError` raised while unpacking a 1×1
confusion matrix; on the two-class path the counts are read off the sorted
label order `[False, True]`, i.e. `tn, fp, fn, tp`, and `precision`,
`recall`, `f1` follow sklearn's `zero_division=0` rule. -/
def reportOfPairs (pairs : List (Bool × Bool)) : Option Report :=
  if pairs.length = 0 then
    some zeroReport
  else if singleClass pairs then
    none
  else
    some
      { accuracy := (pairs.countP (fun q => q.1 == q.2) : ℚ) / (pairs.length : ℚ)
        precision :=
          if pairs.countP (fun q => q.1 && q.2) + pairs.countP (fun q => !q.1 && q.2) = 0
          then 0
          else (pairs.countP (fun q => q.1 && q.2) : ℚ) /
            ((pairs.countP (fun q => q.1 && q.2) : ℚ) + (pairs.countP (fun q => !q.1 && q.2) : ℚ))
        «recall» :=
          if pairs.countP (fun q => q.1 && q.2) + pairs.countP (fun q => q.1 && !q.2) = 0
          then 0
          else (pairs.countP (fun q => q.1 && q.2) : ℚ) /
            ((pairs.countP (fun q => q.1 && q.2) : ℚ) + (pairs.countP (fun q => q.1 && !q.2) : ℚ))
        f1_score :=
          if 2 * pairs.countP (fun q => q.1 && q.2) + pairs.countP (fun q => !q.1 && q.2)
              + pairs.countP (fun q => q.1 && !q.2) = 0
          then 0
          else (2 * (pairs.countP (fun q => q.1 && q.2) : ℚ)) /
            (2 * (pairs.countP (fun q => q.1 && q.2) : ℚ)
              + (pairs.countP (fun q => !q.1 && q.2) : ℚ)
              + (pairs.countP (fun q => q.1 && !q.2) : ℚ))
        true_positives := pairs.countP (fun q => q.1 && q.2)
        false_positives := pairs.countP (fun q => !q.1 && q.2)
        true_negatives := pairs.countP (fun q => !q.1 && !q.2)
        false_negatives := pairs.countP (fun q => q.1 && !q.2)
        total_examples := pairs.length }

/-- Embedding of `evaluate_results(dataset, results)`. -/
def evaluate_results (dataset : Dataset) (results : ResultsDoc) : Option Report :=
  reportOfPairs (matchedPairs dataset results)

/-- Fixed category rotation of the synthesizer. -/
def categories : List String :=
  ["accessibility", "layout", "responsiveness", "ux-dark-patterns", "security"]

/-- One row of the hardcoded `mock_data` table. -/
structure MockEntry where
  assertion : String
  issues : List String
  difficulty : String
deriving DecidableEq

/-- Hardcoded `mock_data` table of `generate_mock_examples`, keyed by
category. The final catch-all arm is never reached by the scripts (lookups
use keys drawn from `categories`); in Python an unknown key would raise
`KeyError`. -/
def mock_data (category : String) : MockEntry :=
  if category = "accessibility" then
    { assertion := "The checkout button has sufficient color contrast (WCAG AA)"
      issues := ["Button contrast ratio is 2.1:1, below WCAG AA requirement of 4.5:1"]
      difficulty := "medium" }
  else if category = "layout" then
    { assertion := "The navigation menu is visible without scrolling"
      issues := ["Navigation menu is pushed below fold due to large hero image"]
      difficulty := "easy" }
  else if category = "responsiveness" then
    { assertion := "The form fields are fully visible on mobile (375px width)"
      issues := ["Input labels are cut off by parent container overflow"]
      difficulty := "medium" }
  else if category = "ux-dark-patterns" then
    { assertion := "The unsubscribe button is as prominent as the subscribe button"
      issues := ["Unsubscribe button is hidden in footer with 8px font size"]
      difficulty := "hard" }
  else if category = "security" then
    { assertion := "The password input field obscures entered characters"
      issues := ["Password field shows plain text characters"]
      difficulty := "easy" }
  else
    { assertion := "", issues := [], difficulty := "" }

/-- Zero-padding of a decimal string to width at least 3
(Python `f"{n:03d}"` applied to `Nat.repr n`). -/
def pad3 (s : String) : String :=
  if s.length < 3 then String.mk (List.replicate (3 - s.length) '0') ++ s else s

/-- Identifier `f"example_{n:03d}"`. -/
def exampleId (n : Nat) : String := "example_" ++ pad3 (Nat.repr n)

/-- Path `f"benchmarks/screenshots/{category}_{n}.png"`. -/
def screenshotPath (category : String) (n : Nat) : String :=
  "benchmarks/screenshots/" ++ category ++ "_" ++ Nat.repr n ++ ".png"

/-- Loop body of `generate_mock_examples` at position `i` (0-based). -/
def mkMockExample (i : Nat) (now : String) : Example :=
  let category := categories.getD (i % categories.length) ""
  let data := mock_data category
  { id := exampleId (i + 1)
    screenshot_path := screenshotPath category (i + 1)
    assertion := data.assertion
    ground_truth := { verdict := false, expected_issues := data.issues }
    metadata := { category := category, difficulty := data.difficulty, created_at := now } }

/-- Embedding of `generate_mock_examples(count)` (the API-unavailable strategy). -/
def generate_mock_examples (count : Nat) (now : String) : List Example :=
  (List.range count).map (fun i => mkMockExample i now)

/-- Inhabitant standing for Python's `{}` fallback in `generate_mock_example`. -/
def defaultExample : Example :=
  { id := "", screenshot_path := "", assertion := "",
    ground_truth := { verdict := false, expected_issues := [] },
    metadata := { category := "", difficulty := "", created_at := "" } }

/-- Embedding of `generate_mock_example(index, category)`. The body calls
`generate_mock_examples(1)` and returns its first element (or `{}` were the
list empty); the `index` and `category` arguments are received but never
used, exactly as in the source. -/
def generate_mock_example (index : Nat) (category : String) (now : String) : Example :=
  (generate_mock_examples 1 now).headD defaultExample

/-- Successful structured reply of the external generation call: the three
fields read out of the parsed JSON. -/
structure GenData where
  assertion : String
  expected_issues : List String
  difficulty : String
deriving DecidableEq

/-- Example built on the success path of the `try` block, position `i` (0-based). -/
def mkExternalExample (i : Nat) (category : String) (data : GenData) (now : String) : Example :=
  { id := exampleId (i + 1)
    screenshot_path := screenshotPath category (i + 1)
    assertion := data.assertion
    ground_truth := { verdict := false, expected_issues := data.expected_issues }
    metadata := { category := category, difficulty := data.difficulty, created_at := now } }

/-- Embedding of `generate_synthetic_examples(count)`. `api_key` is the value
of `os.getenv('ANTHROPIC_API_KEY')`; when absent the whole run delegates to
`generate_mock_examples`, otherwise each position consults the external
oracle and falls back to `generate_mock_example(i+1, category)` on failure. -/
def generate_synthetic_examples (api_key : Option String) (oracle : Nat → Option GenData)
    (count : Nat) (now : String) : List Example :=
  match api_key with
  | none => generate_mock_examples count now
  | some _ =>
    (List.range count).map (fun i =>
      let category := categories.getD (i % categories.length) ""
      match oracle i with
      | some data => mkExternalExample i category data now
      | none => generate_mock_example (i + 1) category now)

/-- Minimal example fixture used by the concrete test inputs below. -/
def exB (id : String) (verdict : Bool) : Example :=
  { id := id, screenshot_path := "", assertion := "",
    ground_truth := { verdict := verdict, expected_issues := [] },
    metadata := { category := "", difficulty := "", created_at := "" } }

/-- Dataset of three examples, every ground-truth verdict `false`. -/
def dAllFalse : Dataset :=
  { version := "1.0", created_at := "t", total_examples := 3,
    examples := [exB "e1" false, exB "e2" false, exB "e3" false] }

/-- Predictions matching `dAllFalse`, every predicted verdict `false`. -/
def rAllFalse : ResultsDoc :=
  { predictions := [⟨"e1", false⟩, ⟨"e2", false⟩, ⟨"e3", false⟩] }

/-- Two-example dataset of the worked example: `e1` true, `e2` false. -/
def dMixed : Dataset :=
  { version := "1.0", created_at := "t", total_examples := 2,
    examples := [exB "e1" true, exB "e2" false] }

/-- Predictions of the worked example: both `true`. -/
def rMixed : ResultsDoc :=
  { predictions := [⟨"e1", true⟩, ⟨"e2", true⟩] }

/-- Oracle that answers the external call at position 0 and fails everywhere
else. -/
def failAfter0 : Nat → Option GenData := fun i =>
  if i = 0 then some ⟨"External assertion", ["external issue"], "easy"⟩ else none

/-! Helper lemmas about the first-match search of the evaluator. -/

/-- Inserting a prediction whose `example_id` differs from the searched id
anywhere in the prediction list leaves the first-match search unchanged. -/
lemma find?_mid_irrelevant (l₁ l₂ : List Prediction) (p : Prediction) (id : String)
    (h : p.example_id ≠ id) :
    List.find? (fun q => q.example_id == id) (l₁ ++ p :: l₂)
      = List.find? (fun q => q.example_id == id) (l₁ ++ l₂) := by
  rw [List.find?_append, List.find?_append]
  cases h₁ : List.find? (fun q => q.example_id == id) l₁ with
  | some x => rfl
  | none =>
    simp only [Option.none_or]
    exact List.find?_cons_of_neg _ (by simp [h])

/-- Inserting a prediction whose `example_id` already occurs earlier leaves the
first-match search unchanged for every searched id. -/
lemma find?_mid_dup (l₁ l₂ : List Prediction) (p : Prediction)
    (h : p.example_id ∈ l₁.map Prediction.example_id) (id : String) :
    List.find? (fun q => q.example_id == id) (l₁ ++ p :: l₂)
      = List.find? (fun q => q.example_id == id) (l₁ ++ l₂) := by
  by_cases hid : p.example_id = id
  · subst hid
    obtain ⟨q, hq, hqid⟩ := List.mem_map.mp h
    cases h₁ : List.find? (fun x => x.example_id == p.example_id) l₁ with
    | some x => rw [List.find?_append, List.find?_append, h₁]; rfl
    | none =>
      exfalso
      rw [List.find?_eq_none] at h₁
      exact h₁ q hq (by simp [hqid])
  · exact find?_mid_irrelevant l₁ l₂ p id hid

/-- Permuting a prediction list with pairwise distinct `example_id` values
leaves the first-match search unchanged for every searched id. -/
lemma find?_perm_nodup (l₁ l₂ : List Prediction) (hperm : l₁.Perm l₂)
    (hnd : (l₁.map Prediction.example_id).Nodup) (id : String) :
    List.find? (fun q => q.example_id == id) l₁
      = List.find? (fun q => q.example_id == id) l₂ := by
  cases h₁ : List.find? (fun q => q.example_id == id) l₁ with
  | none =>
    symm
    rw [List.find?_eq_none] at h₁ ⊢
    exact fun x hx => h₁ x (hperm.mem_iff.mpr hx)
  | some x =>
    have hxmem : x ∈ l₁ := List.mem_of_find?_eq_some h₁
    have hxp := List.find?_some h₁
    cases h₂ : List.find? (fun q => q.example_id == id) l₂ with
    | none =>
      rw [List.find?_eq_none] at h₂
      exact absurd hxp (h₂ x (hperm.mem_iff.mp hxmem))
    | some y =>
      have hymem : y ∈ l₁ := hperm.mem_iff.mpr (List.mem_of_find?_eq_some h₂)
      have hyp := List.find?_some h₂
      have hxy : x = y := by
        refine List.inj_on_of_nodup_map hnd hxmem hymem ?_
        have hx' : x.example_id = id := by simpa using hxp
        have hy' : y.example_id = id := by simpa using hyp
        rw [hx', hy']
      rw [hxy]

/-- The matched pairs only depend on the first-match search results. -/
lemma matchedPairs_congr (d : Dataset) (r₁ r₂ : ResultsDoc)
    (h : ∀ id : String, findPred r₁ id = findPred r₂ id) :
    matchedPairs d r₁ = matchedPairs d r₂ :=
  List.filterMap_congr (fun ex _ => by rw [h ex.id])

/-- The evaluation report only depends on the first-match search results. -/
lemma evaluate_congr (d : Dataset) (r₁ r₂ : ResultsDoc)
    (h : ∀ id : String, findPred r₁ id = findPred r₂ id) :
    evaluate_results d r₁ = evaluate_results d r₂ := by
  unfold evaluate_results
  rw [matchedPairs_congr d r₁ r₂ h]

/-- Any report actually returned records the number of matched pairs in
`total_examples`. -/
lemma reportOfPairs_total (pairs : List (Bool × Bool)) (rep : Report)
    (h : reportOfPairs pairs = some rep) : rep.total_examples = pairs.length := by
  unfold reportOfPairs at h
  split at h
  next hlen =>
    obtain rfl := Option.some.inj h
    simpa [zeroReport] using hlen.symm
  next =>
    split at h
    next => exact absurd h (by simp)
    next =>
      obtain rfl := Option.some.inj h
      rfl

/-- Each matched pair lands in exactly one cell of the confusion matrix. -/
lemma countP_partition (l : List (Bool × Bool)) :
    l.countP (fun q => q.1 && q.2) + l.countP (fun q => !q.1 && q.2)
      + l.countP (fun q => !q.1 && !q.2) + l.countP (fun q => q.1 && !q.2)
      = l.length := by
  induction l with
  | nil => rfl
  | cons q t ih =>
    obtain ⟨a, b⟩ := q
    simp only [List.countP_cons, List.length_cons]
    cases a <;> cases b <;> simp <;> omega

/-- A pair agrees exactly when it is a true positive or a true negative. -/
lemma countP_correct (l : List (Bool × Bool)) :
    l.countP (fun q => q.1 == q.2)
      = l.countP (fun q => q.1 && q.2) + l.countP (fun q => !q.1 && !q.2) := by
  induction l with
  | nil => rfl
  | cons q t ih =>
    obtain ⟨a, b⟩ := q
    simp only [List.countP_cons]
    cases a <;> cases b <;> simp [ih] <;> omega

/-- Length of the matched pairs as a filter over the dataset examples. -/
lemma matchedList_length (r : ResultsDoc) (es : List Example) :
    (es.filterMap (fun ex => (findPred r ex.id).map
        (fun p => (ex.ground_truth.verdict, p.predicted_verdict)))).length
      = (es.filter (fun ex => (findPred r ex.id).isSome)).length := by
  induction es with
  | nil => rfl
  | cons ex t ih =>
    cases hf : findPred r ex.id <;>
      simp [List.filterMap_cons, List.filter_cons, hf, ih]

/-- A first-match search succeeds exactly when some prediction carries the id. -/
lemma findPred_isSome_any (r : ResultsDoc) (id : String) :
    (findPred r id).isSome = r.predictions.any (fun p => p.example_id == id) := by
  rw [Bool.eq_iff_iff]
  simp [findPred, List.find?_isSome, List.any_eq_true]

/-- C1: on the spec's own edge case — three examples with ground-truth
verdict `false`, all predicted `false`, so the matched labels hold a single
class — `evaluate_results` does not return a report at all: sklearn's
`confusion_matrix` is 1×1 and `tn, fp, fn, tp = cm.ravel()` raises
`ValueError`, modelled here by `none`, instead of the report with
accuracy 1.0, precision 0, recall 0, TP=FP=FN=0, TN=3 that the claim
requires. -/
theorem evaluate_results_single_class_raises :
    evaluate_results dAllFalse rAllFalse = none := by decide

/-- C2: when the external call fails at position 1 (0-based) of a 2-example
run, the substituted fallback example does not carry the id `example_002`
for that position, nor content of the table entry for the position's
category (`layout`): `generate_mock_example` ignores its `index` and
`category` arguments and always returns the position-0 `accessibility`
mock example with id `example_001`. -/
theorem generate_fallback_ignores_position :
    (generate_synthetic_examples (some "key") failAfter0 2 "t").length = 2 ∧
    ((generate_synthetic_examples (some "key") failAfter0 2 "t").getD 1 defaultExample).id
      = "example_001" ∧
    ((generate_synthetic_examples (some "key") failAfter0 2 "t").getD 1 defaultExample).id
      ≠ exampleId 2 ∧
    ((generate_synthetic_examples (some "key") failAfter0 2 "t").getD 1
      defaultExample).metadata.category = "accessibility" ∧
    ((generate_synthetic_examples (some "key") failAfter0 2 "t").getD 1
      defaultExample).metadata.category ≠ categories.getD (1 % categories.length) "" ∧
    ((generate_synthetic_examples (some "key") failAfter0 2 "t").getD 1
      defaultExample).assertion = (mock_data "accessibility").assertion := by
  decide

/-- C3: in the external-generation strategy a run of `count = 2` whose second
external call fails yields two examples both carrying the id `example_001`,
so the produced `id` values are not pairwise distinct, and both examples
carry the `accessibility` category, so the per-category counts differ by 2
between `accessibility` and `layout`. -/
theorem generate_duplicate_ids :
    ((generate_synthetic_examples (some "key") failAfter0 2 "t").map Example.id)
      = ["example_001", "example_001"] ∧
    ¬ ((generate_synthetic_examples (some "key") failAfter0 2 "t").map Example.id).Nodup ∧
    ((generate_synthetic_examples (some "key") failAfter0 2 "t").countP
        (fun ex => ex.metadata.category == "accessibility")) = 2 ∧
    ((generate_synthetic_examples (some "key") failAfter0 2 "t").countP
        (fun ex => ex.metadata.category == "layout")) = 0 := by
  decide

/-- C5: when no prediction id coincides with any dataset example id — in
particular when the prediction list is empty — `evaluate_results` returns
the all-zero report with `total_examples = 0` rather than failing. -/
theorem evaluate_results_no_overlap_zero (d : Dataset) (r : ResultsDoc)
    (h : ∀ ex ∈ d.examples, ∀ p ∈ r.predictions, p.example_id ≠ ex.id) :
    evaluate_results d r =
      some { accuracy := 0, precision := 0, «recall» := 0, f1_score := 0,
             true_positives := 0, false_positives := 0, true_negatives := 0,
             false_negatives := 0, total_examples := 0 } := by
  have hp : matchedPairs d r = [] := by
    unfold matchedPairs
    rw [List.filterMap_eq_nil_iff]
    intro ex hex
    have hfind : findPred r ex.id = none := by
      unfold findPred
      rw [List.find?_eq_none]
      intro p hpmem
      simpa using h ex hex p hpmem
    rw [hfind]
    rfl
  rw [evaluate_results, hp]
  rfl

/-- C5 witness: the no-overlap theorem applied to the two-example dataset and
an empty results document. -/
theorem evaluate_results_no_overlap_zero_witness :
    evaluate_results dMixed ⟨[]⟩ =
      some { accuracy := 0, precision := 0, «recall» := 0, f1_score := 0,
             true_positives := 0, false_positives := 0, true_negatives := 0,
             false_negatives := 0, total_examples := 0 } :=
  evaluate_results_no_overlap_zero dMixed ⟨[]⟩ (by simp)

/-- C6: on the worked example — dataset `e1 ↦ true`, `e2 ↦ false` with both
predictions `true` — the evaluator returns TP=1, FP=1, TN=0, FN=0,
accuracy 1/2, precision 1/2, recall 1 (and F1 = 2/3, total 2), with the
confusion counts laid out as TP = predicted ∧ actual, FP = predicted ∧ ¬actual,
TN = ¬predicted ∧ ¬actual, FN = ¬predicted ∧ actual. -/
theorem evaluate_results_mixed_example :
    evaluate_results dMixed rMixed =
      some { accuracy := 1/2, precision := 1/2, «recall» := 1, f1_score := 2/3,
             true_positives := 1, false_positives := 1, true_negatives := 0,
             false_negatives := 0, total_examples := 2 } := by
  have hp : matchedPairs dMixed rMixed = [(true, true), (false, true)] := by decide
  rw [evaluate_results, hp]
  norm_num [reportOfPairs, singleClass, List.countP_cons, List.countP_nil]

/-- C7: every example produced by the synthesizer — under any API-key
availability, any behaviour of the external generator, and any count — has
ground-truth verdict `false`. -/
theorem generate_verdict_false (api_key : Option String)
    (oracle : Nat → Option GenData) (count : Nat) (now : String) (ex : Example)
    (hex : ex ∈ generate_synthetic_examples api_key oracle count now) :
    ex.ground_truth.verdict = false := by
  cases api_key with
  | none =>
    simp only [generate_synthetic_examples, generate_mock_examples,
      List.mem_map] at hex
    obtain ⟨i, _, rfl⟩ := hex
    rfl
  | some k =>
    simp only [generate_synthetic_examples, List.mem_map] at hex
    obtain ⟨i, _, rfl⟩ := hex
    cases horacle : oracle i with
    | some data => simp [horacle, mkExternalExample]
    | none =>
      simp only [horacle]
      rfl

/-- C7 witness: the verdict theorem applied to the sole example of a
mock-strategy run of count 1. -/
theorem generate_verdict_false_witness :
    (mkMockExample 0 "t") ∈ generate_synthetic_examples none (fun _ => none) 1 "t" ∧
    (mkMockExample 0 "t").ground_truth.verdict = false :=
  ⟨by decide,
    generate_verdict_false none (fun _ => none) 1 "t" (mkMockExample 0 "t") (by decide)⟩

/-- Congruence of the join under first-match agreement on the dataset's ids. -/
lemma matchedPairs_congr_mem (d : Dataset) (r₁ r₂ : ResultsDoc)
    (h : ∀ ex ∈ d.examples, findPred r₁ ex.id = findPred r₂ ex.id) :
    matchedPairs d r₁ = matchedPairs d r₂ :=
  List.filterMap_congr (fun ex hx => by rw [h ex hx])

/-- Congruence of the whole evaluation under first-match agreement on the
dataset's ids. -/
lemma evaluate_congr_mem (d : Dataset) (r₁ r₂ : ResultsDoc)
    (h : ∀ ex ∈ d.examples, findPred r₁ ex.id = findPred r₂ ex.id) :
    evaluate_results d r₁ = evaluate_results d r₂ := by
  unfold evaluate_results
  rw [matchedPairs_congr_mem d r₁ r₂ h]

/-- Bridge form of `matchedList_length` stated on `matchedPairs`. -/
lemma matchedPairs_length (d : Dataset) (r : ResultsDoc) :
    (matchedPairs d r).length
      = (d.examples.filter (fun ex => (findPred r ex.id).isSome)).length :=
  matchedList_length r d.examples

/-- C4: on datasets with unique example ids the evaluator implements
first-match join semantics. In order: (1) `total_examples` counts exactly
the dataset examples having some prediction with their id, so an example
with no matching prediction contributes to neither the label sequences nor
the total; (2) the prediction looked up for an id is the first one carrying
that id in prediction order; (3) a duplicate prediction for an id already
present earlier in the list is ignored; (4) a prediction whose `example_id`
matches no dataset example is ignored and, in particular, cannot make the
evaluation fail or change `total_examples`. -/
theorem evaluate_results_first_match_join (d : Dataset)
    (hnd : (d.examples.map Example.id).Nodup) :
    (∀ (r : ResultsDoc) (rep : Report), evaluate_results d r = some rep →
      rep.total_examples
        = d.examples.countP (fun ex => r.predictions.any (fun p => p.example_id == ex.id))) ∧
    (∀ (r : ResultsDoc) (id : String) (l₁ : List Prediction) (x : Prediction)
        (l₂ : List Prediction),
      r.predictions = l₁ ++ x :: l₂ → (∀ q ∈ l₁, q.example_id ≠ id) →
      x.example_id = id → findPred r id = some x) ∧
    (∀ (l₁ l₂ : List Prediction) (p : Prediction),
      p.example_id ∈ l₁.map Prediction.example_id →
      evaluate_results d ⟨l₁ ++ p :: l₂⟩ = evaluate_results d ⟨l₁ ++ l₂⟩) ∧
    (∀ (l₁ l₂ : List Prediction) (p : Prediction),
      (∀ ex ∈ d.examples, ex.id ≠ p.example_id) →
      evaluate_results d ⟨l₁ ++ p :: l₂⟩ = evaluate_results d ⟨l₁ ++ l₂⟩) := by
  refine ⟨?_, ?_, ?_, ?_⟩
  · intro r rep h
    have h1 : rep.total_examples = (matchedPairs d r).length :=
      reportOfPairs_total (matchedPairs d r) rep h
    rw [h1, matchedPairs_length, ← List.countP_eq_length_filter]
    refine List.countP_congr (fun ex _ => ?_)
    rw [findPred_isSome_any]
  · intro r id l₁ x l₂ hsplit hnone hx
    unfold findPred
    rw [hsplit, List.find?_append]
    have h₁ : List.find? (fun q => q.example_id == id) l₁ = none := by
      rw [List.find?_eq_none]
      intro q hq
      simp [hnone q hq]
    rw [h₁, Option.none_or]
    exact List.find?_cons_of_pos _ (by simp [hx])
  · intro l₁ l₂ p hp
    exact evaluate_congr_mem d _ _ (fun ex _ => find?_mid_dup l₁ l₂ p hp ex.id)
  · intro l₁ l₂ p hirr
    exact evaluate_congr_mem d _ _
      (fun ex hex => find?_mid_irrelevant l₁ l₂ p ex.id (Ne.symm (hirr ex hex)))

/-- C4 witness: the join theorem applied to the two-example dataset with an
empty results document, reading off the `total_examples` clause. -/
theorem evaluate_results_first_match_join_witness :
    (dMixed.examples.map Example.id).Nodup ∧
    zeroReport.total_examples
      = dMixed.examples.countP
          (fun ex => ([] : List Prediction).any (fun p => p.example_id == ex.id)) :=
  ⟨by decide, (evaluate_results_first_match_join dMixed (by decide)).1 ⟨[]⟩ zeroReport rfl⟩

/-- C8: on datasets with unique example ids, permuting a prediction list
whose `example_id` values are pairwise distinct leaves the evaluation
(hence every report field) unchanged, and when ids are duplicated only the
first occurrence in prediction order matters: a later duplicate can be
dropped without changing the evaluation. -/
theorem evaluate_results_perm_invariant (d : Dataset)
    (hd : (d.examples.map Example.id).Nodup) :
    (∀ l₁ l₂ : List Prediction, l₁.Perm l₂ →
      (l₁.map Prediction.example_id).Nodup →
      evaluate_results d ⟨l₁⟩ = evaluate_results d ⟨l₂⟩) ∧
    (∀ (l₁ l₂ : List Prediction) (p : Prediction),
      p.example_id ∈ l₁.map Prediction.example_id →
      evaluate_results d ⟨l₁ ++ p :: l₂⟩ = evaluate_results d ⟨l₁ ++ l₂⟩) := by
  constructor
  · intro l₁ l₂ hperm hnd
    exact evaluate_congr d _ _ (fun id => find?_perm_nodup l₁ l₂ hperm hnd id)
  · intro l₁ l₂ p hp
    exact evaluate_congr d _ _ (fun id => find?_mid_dup l₁ l₂ p hp id)

/-- C8 witness: the permutation theorem applied to the two-example dataset
and the two-element prediction list swapped. -/
theorem evaluate_results_perm_invariant_witness :
    (dMixed.examples.map Example.id).Nodup ∧
    evaluate_results dMixed ⟨[⟨"e1", true⟩, ⟨"e2", true⟩]⟩
      = evaluate_results dMixed ⟨[⟨"e2", true⟩, ⟨"e1", true⟩]⟩ :=
  ⟨by decide,
    (evaluate_results_perm_invariant dMixed (by decide)).1
      [⟨"e1", true⟩, ⟨"e2", true⟩] [⟨"e2", true⟩, ⟨"e1", true⟩] (by decide) (by decide)⟩

/-- C9: any report actually returned scores at most one matched pair per
dataset example, and — when the dataset ids are unique — at most one per
prediction: `total_examples` is bounded by both list lengths. -/
theorem evaluate_results_total_le (d : Dataset) (r : ResultsDoc) (rep : Report)
    (h : evaluate_results d r = some rep) :
    rep.total_examples ≤ d.examples.length ∧
    ((d.examples.map Example.id).Nodup →
      rep.total_examples ≤ r.predictions.length) := by
  have htot : rep.total_examples = (matchedPairs d r).length :=
    reportOfPairs_total (matchedPairs d r) rep h
  constructor
  · rw [htot]
    exact List.length_filterMap_le _ _
  · intro hnd
    rw [htot, matchedPairs_length]
    have hsub₁ : ((d.examples.filter
        (fun ex => (findPred r ex.id).isSome)).map Example.id).Sublist
        (d.examples.map Example.id) :=
      List.Sublist.map Example.id (List.filter_sublist _)
    have hndms : ((d.examples.filter
        (fun ex => (findPred r ex.id).isSome)).map Example.id).Nodup :=
      List.Nodup.sublist hsub₁ hnd
    have hsubset : ((d.examples.filter
        (fun ex => (findPred r ex.id).isSome)).map Example.id)
        ⊆ (r.predictions.map Prediction.example_id) := by
      intro s hs
      obtain ⟨ex, hex, rfl⟩ := List.mem_map.mp hs
      have hexf : (findPred r ex.id).isSome = true := by
        simpa using List.of_mem_filter hex
      obtain ⟨p, hp⟩ := Option.isSome_iff_exists.mp hexf
      have hpmem : p ∈ r.predictions := List.mem_of_find?_eq_some hp
      have hpid : p.example_id = ex.id := by simpa using List.find?_some hp
      exact List.mem_map.mpr ⟨p, hpmem, hpid⟩
    calc (d.examples.filter (fun ex => (findPred r ex.id).isSome)).length
        = ((d.examples.filter
            (fun ex => (findPred r ex.id).isSome)).map Example.id).length :=
          (List.length_map _ _).symm
      _ ≤ (r.predictions.map Prediction.example_id).length :=
          (List.subperm_of_subset hndms hsubset).length_le
      _ = r.predictions.length := List.length_map _ _

/-- C9 witness: the bound theorem applied to the two-example dataset with an
empty results document. -/
theorem evaluate_results_total_le_witness :
    zeroReport.total_examples ≤ dMixed.examples.length ∧
    zeroReport.total_examples ≤ ([] : List Prediction).length :=
  ⟨(evaluate_results_total_le dMixed ⟨[]⟩ zeroReport rfl).1,
    (evaluate_results_total_le dMixed ⟨[]⟩ zeroReport rfl).2 (by decide)⟩

/-- C10: any report actually returned satisfies the confusion-matrix
invariants: the four counts sum to `total_examples`, each count is
non-negative, and on a non-empty total the accuracy equals
`(TP + TN) / total_examples`. -/
theorem evaluate_results_report_invariants (d : Dataset) (r : ResultsDoc)
    (rep : Report) (h : evaluate_results d r = some rep) :
    rep.true_positives + rep.false_positives + rep.true_negatives
        + rep.false_negatives = rep.total_examples ∧
    0 ≤ rep.true_positives ∧ 0 ≤ rep.false_positives ∧
    0 ≤ rep.true_negatives ∧ 0 ≤ rep.false_negatives ∧
    (0 < rep.total_examples →
      rep.accuracy = ((rep.true_positives : ℚ) + (rep.true_negatives : ℚ))
        / (rep.total_examples : ℚ)) := by
  unfold evaluate_results reportOfPairs at h
  split at h
  next hlen =>
    obtain rfl := Option.some.inj h
    exact ⟨rfl, Nat.zero_le _, Nat.zero_le _, Nat.zero_le _, Nat.zero_le _,
      fun h0 => absurd h0 (by simp [zeroReport])⟩
  next =>
    split at h
    next => exact absurd h (by simp)
    next =>
      obtain rfl := Option.some.inj h
      refine ⟨countP_partition (matchedPairs d r),
        Nat.zero_le _, Nat.zero_le _, Nat.zero_le _, Nat.zero_le _, fun _ => ?_⟩
      show ((matchedPairs d r).countP (fun q => q.1 == q.2) : ℚ)
            / ((matchedPairs d r).length : ℚ)
          = (((matchedPairs d r).countP (fun q => q.1 && q.2) : ℚ)
            + ((matchedPairs d r).countP (fun q => !q.1 && !q.2) : ℚ))
            / ((matchedPairs d r).length : ℚ)
      rw [countP_correct]
      push_cast
      ring

/-- C10 witness: the invariant theorem applied to the two-example dataset
with an empty results document, whose report is the all-zero report. -/
theorem evaluate_results_report_invariants_witness :
    zeroReport.true_positives + zeroReport.false_positives + zeroReport.true_negatives
        + zeroReport.false_negatives = zeroReport.total_examples ∧
    0 ≤ zeroReport.true_positives ∧ 0 ≤ zeroReport.false_positives ∧
    0 ≤ zeroReport.true_negatives ∧ 0 ≤ zeroReport.false_negatives ∧
    (0 < zeroReport.total_examples →
      zeroReport.accuracy
        = ((zeroReport.true_positives : ℚ) + (zeroReport.true_negatives : ℚ))
          / (zeroReport.total_examples : ℚ)) :=
  evaluate_results_report_invariants dMixed ⟨[]⟩ zeroReport rfl

end FlowGuard
